import Mathlib

/-!
Verification of the per-station orchestration layer of the sugarcane
dump-station monitor: a shallow embedding, in Lean 4, of the cycle state
machine (source/orchestration/dump_state_manager.py), the station
orchestrator (source/orchestration/dump_processor.py), the stream-worker
frame mailbox (source/orchestration/camera.py) and the plate-text
normalizer (source/orchestration/lpr_engine.py), together with theorems
settling the specified properties.

Modelling conventions:
- wall-clock instants are rationals (`Time := ℚ`); every method that reads
  `time.time()` takes the current instant as an explicit argument;
- Python dict signal payloads become structures of `Option`-valued fields,
  and `dict.get(key)` / `dict.get(key, 0)` become `Option.getD`;
- frames are opaque identifiers (`Nat`); session uuids are drawn from a
  per-processor counter (`next_uuid`), abstracting `uuid.uuid4()`;
- database and engine side effects become an explicit `Event` trace
  emitted by each step;
- strings are ASCII here: Python `str.upper`/`str.strip`/`str.isdigit`
  coincide with `String.toUpper`/`String.trim`/`Char.isDigit` on the
  ASCII inputs these functions receive.
-/

namespace SugarcaneDump

abbrev Time := ℚ

/-! Cycle state machine: source/orchestration/dump_state_manager.py -/

inductive DumpState where
  | EMPTY_IDLE
  | TRUCK_IN
  | DUMP_LIFT
  | DUMPING_ACTIVE
  | DUMPING_EMPTY
  | DUMP_DOWN
  | TRUCK_OUT
  | EMPTY_RESET
deriving DecidableEq, Repr

/-- The `.name` attribute of the Python `DumpState` enum member. -/
def DumpState.name : DumpState → String
  | .EMPTY_IDLE => "EMPTY_IDLE"
  | .TRUCK_IN => "TRUCK_IN"
  | .DUMP_LIFT => "DUMP_LIFT"
  | .DUMPING_ACTIVE => "DUMPING_ACTIVE"
  | .DUMPING_EMPTY => "DUMPING_EMPTY"
  | .DUMP_DOWN => "DUMP_DOWN"
  | .TRUCK_OUT => "TRUCK_OUT"
  | .EMPTY_RESET => "EMPTY_RESET"

/-- Front-camera signal dict (`front_data` in `StateManager.update`); a
`none` field models an absent dict key, read through `.get` with a falsy
default. -/
structure FrontData where
  truck_detected : Option Bool := none
  lifting : Option Bool := none
  lift_max : Option Bool := none
  lowering : Option Bool := none
deriving DecidableEq, Repr

/-- Top-camera signal dict (`top_data` in `StateManager.update`);
`cane_percentage` is the integer produced by the classification engine. -/
structure TopData where
  cane_detected : Option Bool := none
  cane_percentage : Option Int := none
  dumping : Option Bool := none
deriving DecidableEq, Repr

/-- State of one `StateManager` instance (dump_state_manager.py).
`session_uuid` of the Python object is unused by its own methods and is
omitted; `debounce_time` defaults to 2.0 seconds as in `__init__`. -/
structure StateManager where
  state : DumpState := .EMPTY_IDLE
  last_state_change : Time := 0
  captured_images : List String := []
  debounce_time : Time := 2
deriving DecidableEq, Repr

/-- `StateManager.transition_to`: set the state, stamp the change time,
and clear the per-cycle capture list when re-entering `EMPTY_IDLE`. -/
def StateManager.transition_to (sm : StateManager) (new_state : DumpState)
    (now : Time) : StateManager :=
  let sm1 : StateManager :=
    { sm with state := new_state, last_state_change := now }
  if new_state = DumpState.EMPTY_IDLE then
    { sm1 with captured_images := [] }
  else sm1

/-- `StateManager.update`: debounce gate, then the strict AND-logic
transition chain; returns the updated manager and the changed flag
(`self.state != old_state`). -/
def StateManager.update (sm : StateManager) (front_data : FrontData)
    (top_data : TopData) (now : Time) : StateManager × Bool :=
  if now - sm.last_state_change < sm.debounce_time then (sm, false)
  else
    let old_state := sm.state
    let sm1 :=
      match sm.state with
      | DumpState.EMPTY_IDLE =>
          if front_data.truck_detected.getD false
              && top_data.cane_detected.getD false then
            sm.transition_to DumpState.TRUCK_IN now
          else sm
      | DumpState.TRUCK_IN =>
          if front_data.lifting.getD false
              && decide (top_data.cane_percentage.getD 0 ≥ 90) then
            sm.transition_to DumpState.DUMP_LIFT now
          else sm
      | DumpState.DUMP_LIFT =>
          if front_data.lift_max.getD false
              && top_data.dumping.getD false then
            sm.transition_to DumpState.DUMPING_ACTIVE now
          else sm
      | DumpState.DUMPING_ACTIVE =>
          if front_data.lift_max.getD false
              && !(top_data.cane_detected.getD false) then
            sm.transition_to DumpState.DUMPING_EMPTY now
          else sm
      | DumpState.DUMPING_EMPTY =>
          if front_data.lowering.getD false
              && !(top_data.cane_detected.getD false) then
            sm.transition_to DumpState.DUMP_DOWN now
          else sm
      | DumpState.DUMP_DOWN =>
          if front_data.truck_detected.getD false
              && !(top_data.cane_detected.getD false) then
            sm.transition_to DumpState.TRUCK_OUT now
          else sm
      | DumpState.TRUCK_OUT =>
          if !(front_data.truck_detected.getD false)
              && !(top_data.cane_detected.getD false) then
            sm.transition_to DumpState.EMPTY_RESET now
          else sm
      | DumpState.EMPTY_RESET =>
          sm.transition_to DumpState.EMPTY_IDLE now
    (sm1, decide (sm1.state ≠ old_state))

/-- `StateManager.get_capture_trigger`: the next image requirement of the
current state, or `none`; Python returns from a chain of membership
checks on `captured_images`. -/
def StateManager.get_capture_trigger (sm : StateManager) (now : Time) :
    Option String :=
  if sm.state = DumpState.TRUCK_IN ∧ "IMAGE_1" ∉ sm.captured_images then
    some "IMAGE_1"
  else if sm.state = DumpState.DUMP_LIFT ∧ "IMAGE_2" ∉ sm.captured_images then
    some "IMAGE_2"
  else if sm.state = DumpState.DUMPING_ACTIVE then
    if "IMAGE_3" ∉ sm.captured_images then some "IMAGE_3"
    else if "IMAGE_4" ∉ sm.captured_images
        ∧ now - sm.last_state_change > 6 then some "IMAGE_4"
    else none
  else none

/-- `StateManager.mark_captured`: unconditionally appends to the
`captured_images` list. -/
def StateManager.mark_captured (sm : StateManager) (image_type : String) :
    StateManager :=
  { sm with captured_images := sm.captured_images ++ [image_type] }

/-- Modelled from the spec, section 4.1: the target of the single outgoing
edge of each state in the transition table. -/
def specTableTarget : DumpState → DumpState
  | .EMPTY_IDLE => .TRUCK_IN
  | .TRUCK_IN => .DUMP_LIFT
  | .DUMP_LIFT => .DUMPING_ACTIVE
  | .DUMPING_ACTIVE => .DUMPING_EMPTY
  | .DUMPING_EMPTY => .DUMP_DOWN
  | .DUMP_DOWN => .TRUCK_OUT
  | .TRUCK_OUT => .EMPTY_RESET
  | .EMPTY_RESET => .EMPTY_IDLE

/-- Modelled from the spec, section 4.1: the condition of each edge of the
transition table (the `EMPTY_RESET` edge is unconditional). -/
def specTableCond (s : DumpState) (front_data : FrontData)
    (top_data : TopData) : Bool :=
  match s with
  | .EMPTY_IDLE =>
      front_data.truck_detected.getD false && top_data.cane_detected.getD false
  | .TRUCK_IN =>
      front_data.lifting.getD false
        && decide (top_data.cane_percentage.getD 0 ≥ 90)
  | .DUMP_LIFT =>
      front_data.lift_max.getD false && top_data.dumping.getD false
  | .DUMPING_ACTIVE =>
      front_data.lift_max.getD false && !(top_data.cane_detected.getD false)
  | .DUMPING_EMPTY =>
      front_data.lowering.getD false && !(top_data.cane_detected.getD false)
  | .DUMP_DOWN =>
      front_data.truck_detected.getD false
        && !(top_data.cane_detected.getD false)
  | .TRUCK_OUT =>
      !(front_data.truck_detected.getD false)
        && !(top_data.cane_detected.getD false)
  | .EMPTY_RESET => true

/-- A signal payload with every missing field replaced by its falsy
default, as `dict.get` does. -/
def FrontData.withDefaults (f : FrontData) : FrontData :=
  { truck_detected := some (f.truck_detected.getD false)
    lifting := some (f.lifting.getD false)
    lift_max := some (f.lift_max.getD false)
    lowering := some (f.lowering.getD false) }

/-- A top payload with every missing field replaced by its falsy/zero
default, as `dict.get` does. -/
def TopData.withDefaults (t : TopData) : TopData :=
  { cane_detected := some (t.cane_detected.getD false)
    cane_percentage := some (t.cane_percentage.getD 0)
    dumping := some (t.dumping.getD false) }

@[simp] theorem transition_to_state (sm : StateManager) (s : DumpState)
    (now : Time) : (sm.transition_to s now).state = s := by
  unfold StateManager.transition_to
  split <;> rfl

@[simp] theorem transition_to_last (sm : StateManager) (s : DumpState)
    (now : Time) : (sm.transition_to s now).last_state_change = now := by
  unfold StateManager.transition_to
  split <;> rfl

@[simp] theorem transition_to_debounce (sm : StateManager) (s : DumpState)
    (now : Time) : (sm.transition_to s now).debounce_time = sm.debounce_time := by
  unfold StateManager.transition_to
  split <;> rfl

theorem specTableTarget_ne_self (s : DumpState) : specTableTarget s ≠ s := by
  cases s <;> decide

theorem update_debounced (sm : StateManager) (f : FrontData) (t : TopData)
    (now : Time) (hdeb : now - sm.last_state_change < sm.debounce_time) :
    sm.update f t now = (sm, false) := by
  unfold StateManager.update
  rw [if_pos hdeb]

theorem update_not_debounced (sm : StateManager) (f : FrontData) (t : TopData)
    (now : Time) (hdeb : ¬ now - sm.last_state_change < sm.debounce_time) :
    sm.update f t now =
      if specTableCond sm.state f t then
        (sm.transition_to (specTableTarget sm.state) now, true)
      else (sm, false) := by
  unfold StateManager.update
  rw [if_neg hdeb]
  cases hs : sm.state <;>
    simp only [hs, specTableCond, specTableTarget] <;>
    (try split_ifs with hc) <;>
    simp_all [StateManager.transition_to]

theorem update_dichotomy (sm : StateManager) (f : FrontData) (t : TopData)
    (now : Time) :
    sm.update f t now = (sm, false)
    ∨ (specTableCond sm.state f t = true
        ∧ sm.update f t now
            = (sm.transition_to (specTableTarget sm.state) now, true)) := by
  by_cases hdeb : now - sm.last_state_change < sm.debounce_time
  · exact Or.inl (update_debounced sm f t now hdeb)
  · rw [update_not_debounced sm f t now hdeb]
    by_cases hc : specTableCond sm.state f t = true
    · exact Or.inr ⟨hc, by rw [if_pos hc]⟩
    · exact Or.inl (by rw [if_neg hc])

/-- C2: outside the debounce window, `StateManager.update` takes exactly
the section-4.1 table edge of the current state when that edge's condition
holds and otherwise leaves the state unchanged and reports no change; in
every case the resulting state is the old state or the table successor
(no invented state), update is a total Lean function (so it raises no
exception), and missing signal fields behave exactly as false/zero. -/
theorem update_follows_spec_table (sm : StateManager) (f : FrontData)
    (t : TopData) (now : Time)
    (hdeb : sm.debounce_time ≤ now - sm.last_state_change) :
    ((sm.update f t now).1.state = sm.state
      ∨ (sm.update f t now).1.state = specTableTarget sm.state)
    ∧ (specTableCond sm.state f t = true →
        (sm.update f t now).1.state = specTableTarget sm.state
          ∧ (sm.update f t now).2 = true)
    ∧ (specTableCond sm.state f t = false →
        (sm.update f t now).1 = sm ∧ (sm.update f t now).2 = false)
    ∧ sm.update f t now
        = sm.update (FrontData.withDefaults f) (TopData.withDefaults t) now := by
  have hdeb' : ¬ now - sm.last_state_change < sm.debounce_time := not_lt.mpr hdeb
  rw [update_not_debounced sm f t now hdeb',
    update_not_debounced sm (FrontData.withDefaults f) (TopData.withDefaults t) now hdeb']
  have hcond : specTableCond sm.state (FrontData.withDefaults f)
      (TopData.withDefaults t) = specTableCond sm.state f t := by
    cases sm.state <;>
      simp [specTableCond, FrontData.withDefaults, TopData.withDefaults]
  rw [hcond]
  by_cases hc : specTableCond sm.state f t = true
  · simp [hc]
  · have hc' : specTableCond sm.state f t = false := by
      simpa using hc
    simp [hc']

/-- C2 witness: the table edge out of `EMPTY_IDLE` fires on a concrete
truck-and-cane signal pair delivered after the debounce window. -/
theorem update_follows_spec_table_witness :
    ((⟨.EMPTY_IDLE, 0, [], 2⟩ : StateManager).debounce_time ≤ (5 : Time) - 0)
    ∧ ((StateManager.update ⟨.EMPTY_IDLE, 0, [], 2⟩
        ⟨some true, none, none, none⟩ ⟨some true, some 95, some false⟩ 5).1.state
          = DumpState.TRUCK_IN) := by
  have hdeb : (⟨.EMPTY_IDLE, 0, [], 2⟩ : StateManager).debounce_time
      ≤ (5 : Time) - 0 := by
    show (2 : ℚ) ≤ (5 : ℚ) - 0
    norm_num
  refine ⟨hdeb, ?_⟩
  have h := update_follows_spec_table ⟨.EMPTY_IDLE, 0, [], 2⟩
    ⟨some true, none, none, none⟩ ⟨some true, some 95, some false⟩ 5 hdeb
  exact (h.2.1 rfl).1

/-- C3: a call to `StateManager.update` made less than `debounce_time`
after the recorded last actual transition is a no-op reporting no change;
consequently, when an update at time τ1 performs an actual transition,
any further update less than `debounce_time` after τ1 leaves the manager
untouched and reports no change, so two qualifying signal sets within the
window yield at most one transition. -/
theorem update_debounce_no_op (sm : StateManager) (f1 : FrontData)
    (t1 : TopData) (τ1 : Time) (f2 : FrontData) (t2 : TopData) (τ2 : Time)
    (hchanged : (sm.update f1 t1 τ1).2 = true)
    (hwin : τ2 - τ1 < sm.debounce_time) :
    (∀ τ, τ - sm.last_state_change < sm.debounce_time →
        sm.update f1 t1 τ = (sm, false))
    ∧ StateManager.update (sm.update f1 t1 τ1).1 f2 t2 τ2
        = ((sm.update f1 t1 τ1).1, false) := by
  refine ⟨fun τ h => update_debounced sm f1 t1 τ h, ?_⟩
  rcases update_dichotomy sm f1 t1 τ1 with h | ⟨_, h⟩
  · rw [h] at hchanged
    exact absurd hchanged (by simp)
  · rw [h]
    apply update_debounced
    rw [transition_to_last, transition_to_debounce]
    exact hwin

/-- C3 witness: a transition fires at time 5 out of `EMPTY_IDLE`, and a
second qualifying signal set 1 second later (inside the 2-second window)
is dropped without a transition. -/
theorem update_debounce_no_op_witness :
    ((StateManager.update ⟨.EMPTY_IDLE, 0, [], 2⟩
        ⟨some true, none, none, none⟩ ⟨some true, some 95, some false⟩ 5).2 = true)
    ∧ ((6 : Time) - 5 < (⟨.EMPTY_IDLE, 0, [], 2⟩ : StateManager).debounce_time)
    ∧ (StateManager.update
        (StateManager.update ⟨.EMPTY_IDLE, 0, [], 2⟩
          ⟨some true, none, none, none⟩ ⟨some true, some 95, some false⟩ 5).1
        ⟨some true, none, none, none⟩ ⟨some true, some 95, some false⟩ 6
      = ((StateManager.update ⟨.EMPTY_IDLE, 0, [], 2⟩
          ⟨some true, none, none, none⟩ ⟨some true, some 95, some false⟩ 5).1,
         false)) := by
  have hdeb' : ¬ ((5 : Time) - (0 : Time) < (2 : Time)) := by norm_num
  have hup : StateManager.update ⟨.EMPTY_IDLE, 0, [], 2⟩
      ⟨some true, none, none, none⟩ ⟨some true, some 95, some false⟩ 5
      = (StateManager.transition_to ⟨.EMPTY_IDLE, 0, [], 2⟩
          DumpState.TRUCK_IN 5, true) := by
    rw [update_not_debounced ⟨.EMPTY_IDLE, 0, [], 2⟩
      ⟨some true, none, none, none⟩ ⟨some true, some 95, some false⟩ 5 hdeb']
    rfl
  have hch : (StateManager.update ⟨.EMPTY_IDLE, 0, [], 2⟩
      ⟨some true, none, none, none⟩ ⟨some true, some 95, some false⟩ 5).2
      = true := by
    rw [hup]
  have hwin : (6 : Time) - 5
      < (⟨.EMPTY_IDLE, 0, [], 2⟩ : StateManager).debounce_time := by
    show (6 : ℚ) - 5 < 2
    norm_num
  exact ⟨hch, hwin, (update_debounce_no_op ⟨.EMPTY_IDLE, 0, [], 2⟩
    ⟨some true, none, none, none⟩ ⟨some true, some 95, some false⟩ 5
    ⟨some true, none, none, none⟩ ⟨some true, some 95, some false⟩ 6
    hch hwin).2⟩

/-- C6: `get_capture_trigger` returns the next unfulfilled image
requirement of the current state or `none`: `IMAGE_1` in `TRUCK_IN`,
`IMAGE_2` in `DUMP_LIFT`, `IMAGE_3` immediately in `DUMPING_ACTIVE` and
`IMAGE_4` there only once more than 6 seconds (hence at least 6.0 s) have
elapsed since entering the state; a requirement already in the captured
set is never returned again, and every other state yields `none`. -/
theorem get_capture_trigger_next_requirement (sm : StateManager)
    (now : Time) :
    (∀ img, sm.get_capture_trigger now = some img →
        img ∉ sm.captured_images)
    ∧ (sm.state = DumpState.TRUCK_IN →
        sm.get_capture_trigger now =
          if "IMAGE_1" ∈ sm.captured_images then none else some "IMAGE_1")
    ∧ (sm.state = DumpState.DUMP_LIFT →
        sm.get_capture_trigger now =
          if "IMAGE_2" ∈ sm.captured_images then none else some "IMAGE_2")
    ∧ (sm.state = DumpState.DUMPING_ACTIVE →
        sm.get_capture_trigger now =
          (if "IMAGE_3" ∉ sm.captured_images then some "IMAGE_3"
           else if "IMAGE_4" ∉ sm.captured_images
               ∧ now - sm.last_state_change > 6 then some "IMAGE_4"
           else none))
    ∧ (sm.state ≠ DumpState.TRUCK_IN → sm.state ≠ DumpState.DUMP_LIFT →
        sm.state ≠ DumpState.DUMPING_ACTIVE →
        sm.get_capture_trigger now = none)
    ∧ (sm.get_capture_trigger now = some "IMAGE_4" →
        sm.state = DumpState.DUMPING_ACTIVE
          ∧ 6 ≤ now - sm.last_state_change) := by
  refine ⟨?_, ?_, ?_, ?_, ?_, ?_⟩
  · intro img h
    unfold StateManager.get_capture_trigger at h
    split_ifs at h <;> simp_all
  · intro hs
    unfold StateManager.get_capture_trigger
    split_ifs <;> simp_all
  · intro hs
    unfold StateManager.get_capture_trigger
    split_ifs <;> simp_all
  · intro hs
    unfold StateManager.get_capture_trigger
    split_ifs <;> simp_all
  · intro h1 h2 h3
    unfold StateManager.get_capture_trigger
    split_ifs <;> simp_all
  · intro h
    unfold StateManager.get_capture_trigger at h
    split_ifs at h <;> simp_all <;> linarith

/-- C9 counterexample: on a fresh manager, marking `IMAGE_1` captured
twice does not leave the manager in the state that marking it once does —
the recorded `captured_images` list grows to two entries. -/
theorem mark_captured_not_idempotent_cex :
    StateManager.mark_captured
        (StateManager.mark_captured
          ⟨.EMPTY_IDLE, 0, [], 2⟩ "IMAGE_1") "IMAGE_1"
      ≠ StateManager.mark_captured ⟨.EMPTY_IDLE, 0, [], 2⟩ "IMAGE_1" := by
  intro h
  have hlist : (["IMAGE_1", "IMAGE_1"] : List String) = ["IMAGE_1"] :=
    congrArg StateManager.captured_images h
  exact absurd hlist (by simp)

/-- C9 amended: `mark_captured` is idempotent at the level of every
observation the code makes of the capture record — the state, the change
time, the debounce setting, membership in the captured set, and every
subsequent `get_capture_trigger` result are unchanged by a repeated call —
but the recorded `captured_images` list itself is not: the repeated call
appends a duplicate entry. -/
theorem mark_captured_observationally_idempotent (sm : StateManager)
    (image_type : String) :
    ((sm.mark_captured image_type).mark_captured image_type).state
        = (sm.mark_captured image_type).state
    ∧ ((sm.mark_captured image_type).mark_captured
          image_type).last_state_change
        = (sm.mark_captured image_type).last_state_change
    ∧ ((sm.mark_captured image_type).mark_captured image_type).debounce_time
        = (sm.mark_captured image_type).debounce_time
    ∧ (∀ img,
        img ∈ ((sm.mark_captured image_type).mark_captured
            image_type).captured_images
          ↔ img ∈ (sm.mark_captured image_type).captured_images)
    ∧ (∀ now, ((sm.mark_captured image_type).mark_captured
            image_type).get_capture_trigger now
          = (sm.mark_captured image_type).get_capture_trigger now)
    ∧ ((sm.mark_captured image_type).mark_captured
          image_type).captured_images
        = (sm.mark_captured image_type).captured_images ++ [image_type] := by
  have hmem : ∀ img,
      img ∈ ((sm.mark_captured image_type).mark_captured
          image_type).captured_images
        ↔ img ∈ (sm.mark_captured image_type).captured_images := by
    intro img
    simp only [StateManager.mark_captured, List.mem_append,
      List.mem_singleton]
    tauto
  refine ⟨rfl, rfl, rfl, hmem, ?_, rfl⟩
  intro now
  unfold StateManager.get_capture_trigger
  simp only [StateManager.mark_captured]
  have h1 := hmem "IMAGE_1"
  have h2 := hmem "IMAGE_2"
  have h3 := hmem "IMAGE_3"
  have h4 := hmem "IMAGE_4"
  simp only [StateManager.mark_captured] at h1 h2 h3 h4
  simp only [List.mem_append, List.mem_singleton] at h1 h2 h3 h4 ⊢
  split_ifs <;> simp_all

/-! Station orchestrator: source/orchestration/dump_processor.py.
Frames are opaque `Nat` identifiers; the engine and database side effects
of one `_process_cycle` call are recorded as an `Event` trace. -/

/-- One observable side effect of a processor cycle: an AI-engine call
(`lprDetect` records the `skip_ocr` argument), a fallback snapshot, or a
database-manager call. `updateSessionFinal` stands for the
`update_session(end_time=…, merged_image_path=…, status=…)` call issued by
`_finalize_session`. -/
inductive Event where
  | lprDetect (skip_ocr : Bool)
  | clsAnalyze
  | saveSnap (view_type : String)
  | createSession (uuid : Nat)
  | logTransition (uuid : Nat) (state_from state_to : String) (changed_at : Time)
  | updateSessionPlate (uuid : Nat) (plate_number : String)
  | logImage (uuid : Nat) (image_type : String)
  | mergeImages (slots : List (Option Nat)) (plate_number : String)
  | updateSessionFinal (uuid : Nat) (end_time : Time) (status : String)
      (merged_image_path : String)
deriving DecidableEq, Repr

/-- The `session_images` buffer: one optional frame per image slot. -/
structure SessionImages where
  image1 : Option Nat := none
  image2 : Option Nat := none
  image3 : Option Nat := none
  image4 : Option Nat := none
deriving DecidableEq, Repr

/-- Assignment `self.session_images[trigger] = img`. -/
def SessionImages.set (imgs : SessionImages) (image_type : String)
    (v : Option Nat) : SessionImages :=
  if image_type = "IMAGE_1" then { imgs with image1 := v }
  else if image_type = "IMAGE_2" then { imgs with image2 := v }
  else if image_type = "IMAGE_3" then { imgs with image3 := v }
  else if image_type = "IMAGE_4" then { imgs with image4 := v }
  else imgs

/-- The list `self.session_images.values()` in slot order. -/
def SessionImages.values (imgs : SessionImages) : List (Option Nat) :=
  [imgs.image1, imgs.image2, imgs.image3, imgs.image4]

/-- `all(v is not None for v in self.session_images.values())`. -/
def SessionImages.all_captured (imgs : SessionImages) : Bool :=
  imgs.values.all Option.isSome

/-- The number k of filled image slots of a session buffer. -/
def SessionImages.filledCount (imgs : SessionImages) : Nat :=
  (imgs.values.filter Option.isSome).length

/-- A plate-engine response (`LPRResult`): the vertical bbox coordinate
the orchestrator's lift heuristics read, and the OCR text when present. -/
structure LPRRes where
  y1 : Int
  text : Option String
deriving DecidableEq, Repr

/-- Environment data consumed by one `_process_cycle` call: the two
frames, the plate-engine response of the per-tick call, the plate-engine
response of the `IMAGE_1` capture re-run, the classification response,
and the clock. -/
structure CycleInput where
  f_frame : Nat
  t_frame : Nat
  lpr_res : Option LPRRes
  lpr_full : Option LPRRes
  cls_res : TopData
  now : Time
deriving DecidableEq, Repr

/-- State of one `DumpProcessor` thread object (the fields the cycle
logic reads and writes); `next_uuid` abstracts the uuid4 generator. -/
structure DumpProcessor where
  dump_id : String
  sm : StateManager
  session_uuid : Option Nat := none
  next_uuid : Nat := 0
  session_images : SessionImages := {}
  plate_number : String := "UNKNOWN"
  ai_enabled : Bool := true
  last_snap_time : Time := 0
deriving DecidableEq, Repr

/-- The `front_data` dict built from the plate-engine response:
`truck_detected` is presence of a detection, and the lift booleans come
from the y-coordinate heuristic (`y1 < 100` means lift_max, else
`y1 < 250` means lifting). -/
def frontFromLpr (lpr_res : Option LPRRes) : FrontData :=
  match lpr_res with
  | none =>
      { truck_detected := some false, lifting := some false
        lift_max := some false, lowering := some false }
  | some r =>
      { truck_detected := some true
        lifting := some (decide (¬ r.y1 < 100 ∧ r.y1 < 250))
        lift_max := some (decide (r.y1 < 100))
        lowering := some false }

/-- The per-tick plate string: `lpr_res.text if lpr_res.text else
"UNKNOWN"` when a plate was detected, `"-"` otherwise (Python truthiness:
empty text counts as absent). -/
def tickPlateNumber (lpr_res : Option LPRRes) : String :=
  match lpr_res with
  | some r =>
      match r.text with
      | some s => if s = "" then "UNKNOWN" else s
      | none => "UNKNOWN"
  | none => "-"

/-- The composite-artifact path `MERGED_{dump_id}_{session_prefix}.jpg`
(session uuids are modelled as counters, so the whole uuid stands in for
its 8-character prefix). -/
def merged_filename (dump_id : String) (uuid : Nat) : String :=
  "MERGED_" ++ dump_id ++ "_" ++ toString uuid ++ ".jpg"

/-- `DumpProcessor._perform_capture`: for `IMAGE_1` re-run the plate
engine with OCR and persist the plate number when the response carries
text; save the front frame for `IMAGE_1` and the top frame otherwise,
log the image, record it in the buffer and mark the requirement
fulfilled. -/
def DumpProcessor.perform_capture (p : DumpProcessor) (trigger : String)
    (inp : CycleInput) (uuid : Nat) : DumpProcessor × List Event :=
  if trigger = "IMAGE_1" then
    let ocr_events := [Event.lprDetect false]
    let plateUpd : Option String :=
      match inp.lpr_full with
      | some r =>
          match r.text with
          | some s => if s = "" then none else some s
          | none => none
      | none => none
    let p1 :=
      match plateUpd with
      | some s => { p with plate_number := s }
      | none => p
    let plate_events :=
      match plateUpd with
      | some s => [Event.updateSessionPlate uuid s]
      | none => []
    let p2 := { p1 with
      session_images := p1.session_images.set trigger (some inp.f_frame)
      sm := p1.sm.mark_captured trigger }
    (p2, ocr_events ++ plate_events ++ [Event.logImage uuid trigger])
  else
    let p2 := { p with
      session_images := p.session_images.set trigger (some inp.t_frame)
      sm := p.sm.mark_captured trigger }
    (p2, [Event.logImage uuid trigger])

/-- `DumpProcessor._finalize_session`: status is COMPLETE iff every slot
of the buffer is filled; build the composite from the slot values, then
persist end time, status and composite path via `update_session`. -/
def DumpProcessor.finalize_session (p : DumpProcessor) (now : Time)
    (uuid : Nat) : List Event :=
  let status := if p.session_images.all_captured then "COMPLETE"
    else "INCOMPLETE"
  [Event.mergeImages p.session_images.values p.plate_number,
   Event.updateSessionFinal uuid now status (merged_filename p.dump_id uuid)]

/-- The `if state_changed:` block of `_process_cycle` applied to the
already-updated processor: audit-log the transition when a session handle
is present, open a session exactly on TRUCK_IN when none is open, and
finalize (then drop the handle) exactly on EMPTY_RESET when one is. -/
def DumpProcessor.transition_phase (q : DumpProcessor) (state_changed : Bool)
    (now : Time) : DumpProcessor × List Event :=
  if state_changed then
    let log_events :=
      match q.session_uuid with
      | some uuid => [Event.logTransition uuid "PREV" q.sm.state.name now]
      | none => []
    let pa :=
      if q.sm.state = DumpState.TRUCK_IN ∧ q.session_uuid = none then
        ({ q with
            session_uuid := some q.next_uuid
            next_uuid := q.next_uuid + 1
            session_images := {}
            plate_number := "UNKNOWN" },
         log_events ++ [Event.createSession q.next_uuid])
      else (q, log_events)
    match pa.1.session_uuid with
    | some uuid =>
        if pa.1.sm.state = DumpState.EMPTY_RESET then
          ({ pa.1 with session_uuid := none },
           pa.2 ++ pa.1.finalize_session now uuid)
        else pa
    | none => pa
  else (q, [])

/-- The capture block of `_process_cycle`: run `_perform_capture` when a
requirement is pending and a session is open. -/
def DumpProcessor.capture_phase (q : DumpProcessor) (inp : CycleInput) :
    DumpProcessor × List Event :=
  match q.sm.get_capture_trigger inp.now, q.session_uuid with
  | some trig, some uuid => q.perform_capture trig inp uuid
  | _, _ => (q, [])

/-- `DumpProcessor._process_cycle` on a tick where both frames are
available: the AI-disabled fallback snapshot branch, or the analysis
path — plate and classification engine calls, FSM update, transition
bookkeeping and capture execution. -/
def DumpProcessor.process_cycle (p : DumpProcessor) (inp : CycleInput) :
    DumpProcessor × List Event :=
  if !p.ai_enabled then
    if inp.now - p.last_snap_time > 10 then
      ({ p with last_snap_time := inp.now },
       [Event.saveSnap "LPR", Event.saveSnap "TopView"])
    else (p, [])
  else
    let upd := p.sm.update (frontFromLpr inp.lpr_res) inp.cls_res inp.now
    let p1 := { p with
      sm := upd.1
      plate_number := tickPlateNumber inp.lpr_res }
    let tr := p1.transition_phase upd.2 inp.now
    let cap := tr.1.capture_phase inp
    (cap.1, [Event.lprDetect false, Event.clsAnalyze] ++ tr.2 ++ cap.2)

/-- A fresh `DumpProcessor` as `__init__` builds it at time `t0` (the
state manager stamps `last_state_change = time.time()` on creation). -/
def DumpProcessor.init (dump_id : String) (t0 : Time) : DumpProcessor :=
  { dump_id := dump_id, sm := { last_state_change := t0 } }

/-- Folding `_process_cycle` over a sequence of tick inputs. -/
def DumpProcessor.runCycles (p : DumpProcessor)
    (inputs : List CycleInput) : DumpProcessor :=
  inputs.foldl (fun q inp => (q.process_cycle inp).1) p

/-- Processor states reachable from `p0` by some sequence of ticks. -/
def ReachableFrom (p0 p : DumpProcessor) : Prop :=
  ∃ inputs, p = p0.runCycles inputs

/-- The FSM states during which a cycle's session is open: from the
TRUCK_IN entry up to (but excluding) the EMPTY_RESET entry. -/
def DumpState.sessionOpen : DumpState → Bool
  | .TRUCK_IN => true
  | .DUMP_LIFT => true
  | .DUMPING_ACTIVE => true
  | .DUMPING_EMPTY => true
  | .DUMP_DOWN => true
  | .TRUCK_OUT => true
  | .EMPTY_IDLE => false
  | .EMPTY_RESET => false

/-- Recognizer for `create_session` calls in a trace. -/
def Event.isCreate : Event → Bool
  | .createSession _ => true
  | _ => false

/-- Recognizer for terminal `update_session(status=…)` calls in a trace. -/
def Event.isFinalUpdate : Event → Bool
  | .updateSessionFinal _ _ _ _ => true
  | _ => false

/-- Recognizer for `log_state_transition` calls in a trace. -/
def Event.isLogTransition : Event → Bool
  | .logTransition _ _ _ _ => true
  | _ => false

@[simp] theorem mark_captured_state (sm : StateManager) (t : String) :
    (sm.mark_captured t).state = sm.state := rfl

@[simp] theorem mark_captured_last (sm : StateManager) (t : String) :
    (sm.mark_captured t).last_state_change = sm.last_state_change := rfl

/-- The session-handle invariant: the in-memory handle is non-empty
exactly during the open-session window of the FSM. -/
def SessionInv (p : DumpProcessor) : Prop :=
  p.session_uuid.isSome = p.sm.state.sessionOpen

theorem perform_capture_counts (p : DumpProcessor) (trigger : String)
    (inp : CycleInput) (uuid : Nat) :
    (p.perform_capture trigger inp uuid).1.session_uuid = p.session_uuid
    ∧ (p.perform_capture trigger inp uuid).1.sm.state = p.sm.state
    ∧ ((p.perform_capture trigger inp uuid).2.countP Event.isCreate = 0)
    ∧ ((p.perform_capture trigger inp uuid).2.countP Event.isFinalUpdate = 0)
    ∧ ((p.perform_capture trigger inp uuid).2.countP
        Event.isLogTransition = 0) := by
  unfold DumpProcessor.perform_capture
  split_ifs with h
  · rcases hfull : inp.lpr_full with _ | r
    · simp [hfull, Event.isCreate, Event.isFinalUpdate, Event.isLogTransition]
    · rcases htext : r.text with _ | s
      · simp [hfull, htext, Event.isCreate, Event.isFinalUpdate,
          Event.isLogTransition]
      · by_cases hs : s = "" <;>
          simp [hfull, htext, hs, Event.isCreate, Event.isFinalUpdate,
            Event.isLogTransition]
  · simp [Event.isCreate, Event.isFinalUpdate, Event.isLogTransition]

@[simp] theorem capture_phase_session (q : DumpProcessor) (inp : CycleInput) :
    (q.capture_phase inp).1.session_uuid = q.session_uuid := by
  unfold DumpProcessor.capture_phase
  rcases htr : q.sm.get_capture_trigger inp.now with _ | tg
  · simp [htr]
  · rcases hse : q.session_uuid with _ | u
    · simp [htr, hse]
    · simp [htr, hse, (perform_capture_counts q tg inp u).1]

@[simp] theorem capture_phase_state (q : DumpProcessor) (inp : CycleInput) :
    (q.capture_phase inp).1.sm.state = q.sm.state := by
  unfold DumpProcessor.capture_phase
  rcases htr : q.sm.get_capture_trigger inp.now with _ | tg
  · simp [htr]
  · rcases hse : q.session_uuid with _ | u
    · simp [htr, hse]
    · simp [htr, hse, (perform_capture_counts q tg inp u).2.1]

@[simp] theorem capture_phase_create (q : DumpProcessor) (inp : CycleInput) :
    (q.capture_phase inp).2.countP Event.isCreate = 0 := by
  unfold DumpProcessor.capture_phase
  rcases htr : q.sm.get_capture_trigger inp.now with _ | tg
  · simp [htr]
  · rcases hse : q.session_uuid with _ | u
    · simp [htr, hse]
    · simp [htr, hse, (perform_capture_counts q tg inp u).2.2.1]

@[simp] theorem capture_phase_final (q : DumpProcessor) (inp : CycleInput) :
    (q.capture_phase inp).2.countP Event.isFinalUpdate = 0 := by
  unfold DumpProcessor.capture_phase
  rcases htr : q.sm.get_capture_trigger inp.now with _ | tg
  · simp [htr]
  · rcases hse : q.session_uuid with _ | u
    · simp [htr, hse]
    · simp [htr, hse, (perform_capture_counts q tg inp u).2.2.2.1]

@[simp] theorem capture_phase_log (q : DumpProcessor) (inp : CycleInput) :
    (q.capture_phase inp).2.countP Event.isLogTransition = 0 := by
  unfold DumpProcessor.capture_phase
  rcases htr : q.sm.get_capture_trigger inp.now with _ | tg
  · simp [htr]
  · rcases hse : q.session_uuid with _ | u
    · simp [htr, hse]
    · simp [htr, hse, (perform_capture_counts q tg inp u).2.2.2.2]

theorem option_isSome_false {α : Type} {o : Option α}
    (h : o.isSome = false) : o = none := by
  cases o
  · rfl
  · simp at h

@[simp] theorem transition_phase_false (q : DumpProcessor) (now : Time) :
    q.transition_phase false now = (q, []) := rfl

/-- Entering TRUCK_IN with no open session: a session is created. -/
theorem transition_phase_T1 (q : DumpProcessor) (now : Time)
    (h1 : q.sm.state = DumpState.TRUCK_IN) (h2 : q.session_uuid = none) :
    q.transition_phase true now =
      ({ q with
          session_uuid := some q.next_uuid
          next_uuid := q.next_uuid + 1
          session_images := {}
          plate_number := "UNKNOWN" },
       [Event.createSession q.next_uuid]) := by
  unfold DumpProcessor.transition_phase
  simp [h1, h2]

/-- A transition with no open session that does not enter TRUCK_IN:
nothing is logged, created or finalized. -/
theorem transition_phase_T2 (q : DumpProcessor) (now : Time)
    (h1 : q.sm.state ≠ DumpState.TRUCK_IN) (h2 : q.session_uuid = none) :
    q.transition_phase true now = (q, []) := by
  unfold DumpProcessor.transition_phase
  simp [h1, h2]

/-- Entering EMPTY_RESET with an open session: the transition is logged
and the session finalized, after which the handle is dropped. -/
theorem transition_phase_T3 (q : DumpProcessor) (now : Time) (u : Nat)
    (h1 : q.sm.state = DumpState.EMPTY_RESET) (h2 : q.session_uuid = some u) :
    q.transition_phase true now =
      ({ q with session_uuid := none },
       [Event.logTransition u "PREV" q.sm.state.name now]
         ++ q.finalize_session now u) := by
  unfold DumpProcessor.transition_phase
  simp [h1, h2]

/-- A mid-cycle transition with an open session: only the audit record is
appended. -/
theorem transition_phase_T4 (q : DumpProcessor) (now : Time) (u : Nat)
    (h1 : q.sm.state ≠ DumpState.TRUCK_IN)
    (h3 : q.sm.state ≠ DumpState.EMPTY_RESET)
    (h2 : q.session_uuid = some u) :
    q.transition_phase true now =
      (q, [Event.logTransition u "PREV" q.sm.state.name now]) := by
  unfold DumpProcessor.transition_phase
  simp [h1, h2, h3]

@[simp] theorem finalize_session_countP_create (p : DumpProcessor)
    (now : Time) (u : Nat) :
    (p.finalize_session now u).countP Event.isCreate = 0 := by
  unfold DumpProcessor.finalize_session
  simp [Event.isCreate]

@[simp] theorem finalize_session_countP_final (p : DumpProcessor)
    (now : Time) (u : Nat) :
    (p.finalize_session now u).countP Event.isFinalUpdate = 1 := by
  unfold DumpProcessor.finalize_session
  simp [Event.isFinalUpdate]

@[simp] theorem finalize_session_countP_log (p : DumpProcessor)
    (now : Time) (u : Nat) :
    (p.finalize_session now u).countP Event.isLogTransition = 0 := by
  unfold DumpProcessor.finalize_session
  simp [Event.isLogTransition]

theorem process_cycle_ai (p : DumpProcessor) (inp : CycleInput)
    (hai : p.ai_enabled = true) :
    p.process_cycle inp =
      (let upd := p.sm.update (frontFromLpr inp.lpr_res) inp.cls_res inp.now
       let p1 := { p with
         sm := upd.1
         plate_number := tickPlateNumber inp.lpr_res }
       let tr := p1.transition_phase upd.2 inp.now
       let cap := tr.1.capture_phase inp
       (cap.1, [Event.lprDetect false, Event.clsAnalyze] ++ tr.2 ++ cap.2)) := by
  unfold DumpProcessor.process_cycle
  rw [hai]
  rfl

theorem process_cycle_noai (p : DumpProcessor) (inp : CycleInput)
    (hai : p.ai_enabled = false) :
    p.process_cycle inp =
      if inp.now - p.last_snap_time > 10 then
        ({ p with last_snap_time := inp.now },
         [Event.saveSnap "LPR", Event.saveSnap "TopView"])
      else (p, []) := by
  unfold DumpProcessor.process_cycle
  rw [hai]
  rfl

/-- One tick preserves the session-handle invariant and performs session
bookkeeping exactly on the FSM entries: `create_session` exactly on entry
to TRUCK_IN (and only with no session open), the terminal status update
exactly on entry to EMPTY_RESET (and only with a session open), and the
handle is empty whenever the FSM rests in EMPTY_RESET. -/
theorem process_cycle_spec (p : DumpProcessor) (inp : CycleInput)
    (hinv : SessionInv p) :
    SessionInv (p.process_cycle inp).1
    ∧ ((p.process_cycle inp).1.sm.state = DumpState.TRUCK_IN
          ∧ p.sm.state ≠ DumpState.TRUCK_IN → p.session_uuid = none)
    ∧ ((p.process_cycle inp).2.countP Event.isCreate
        = if (p.process_cycle inp).1.sm.state = DumpState.TRUCK_IN
              ∧ p.sm.state ≠ DumpState.TRUCK_IN then 1 else 0)
    ∧ ((p.process_cycle inp).1.sm.state = DumpState.EMPTY_RESET
          ∧ p.sm.state ≠ DumpState.EMPTY_RESET → p.session_uuid.isSome = true)
    ∧ ((p.process_cycle inp).2.countP Event.isFinalUpdate
        = if (p.process_cycle inp).1.sm.state = DumpState.EMPTY_RESET
              ∧ p.sm.state ≠ DumpState.EMPTY_RESET then 1 else 0)
    ∧ ((p.process_cycle inp).1.sm.state = DumpState.EMPTY_RESET →
        (p.process_cycle inp).1.session_uuid = none) := by
  unfold SessionInv at hinv
  by_cases hai : p.ai_enabled = true
  case neg =>
    have hai2 : p.ai_enabled = false := by
      simpa using hai
    rw [process_cycle_noai p inp hai2]
    by_cases hsnap : inp.now - p.last_snap_time > 10
    · rw [if_pos hsnap]
      refine ⟨hinv, ?_, ?_, ?_, ?_, ?_⟩
      · rintro ⟨a, b⟩
        exact absurd a b
      · simp [Event.isCreate]
      · rintro ⟨a, b⟩
        exact absurd a b
      · simp [Event.isFinalUpdate]
      · intro h
        have h2 : p.sm.state = DumpState.EMPTY_RESET := h
        exact option_isSome_false (by rw [hinv, h2]; rfl)
    · rw [if_neg hsnap]
      refine ⟨hinv, ?_, ?_, ?_, ?_, ?_⟩
      · rintro ⟨a, b⟩
        exact absurd a b
      · simp
      · rintro ⟨a, b⟩
        exact absurd a b
      · simp
      · intro h
        exact option_isSome_false (by rw [hinv, h]; rfl)
  case pos =>
    rcases update_dichotomy p.sm (frontFromLpr inp.lpr_res) inp.cls_res
      inp.now with hup | ⟨hc, hup⟩
    · -- debounced or condition not met: the tick leaves state and session
      rw [process_cycle_ai p inp hai]
      simp only [hup, transition_phase_false]
      refine ⟨?_, ?_, ?_, ?_, ?_, ?_⟩
      · simp only [SessionInv, capture_phase_session, capture_phase_state]
        exact hinv
      · rintro ⟨a, b⟩
        simp only [capture_phase_state] at a
        exact absurd a b
      · simp [Event.isCreate, List.countP_append]
      · rintro ⟨a, b⟩
        simp only [capture_phase_state] at a
        exact absurd a b
      · simp [Event.isFinalUpdate, List.countP_append]
      · intro h
        simp only [capture_phase_state] at h
        simp only [capture_phase_session]
        have h2 : p.sm.state = DumpState.EMPTY_RESET := h
        exact option_isSome_false (by rw [hinv, h2]; rfl)
    · -- an actual transition fires
      cases hsold : p.sm.state
      · -- EMPTY_IDLE entering TRUCK_IN: session creation
        rw [hsold] at hup
        simp only [specTableTarget] at hup
        have hse : p.session_uuid = none := by
          apply option_isSome_false
          rw [hinv, hsold]
          rfl
        rw [process_cycle_ai p inp hai]
        simp only [hup]
        set q1 : DumpProcessor :=
          { p with
            sm := p.sm.transition_to DumpState.TRUCK_IN inp.now
            plate_number := tickPlateNumber inp.lpr_res } with hq1
        have hq1s : q1.sm.state = DumpState.TRUCK_IN := by
          rw [hq1]
          simp
        have hq1e : q1.session_uuid = none := by
          rw [hq1]
          exact hse
        rw [transition_phase_T1 q1 inp.now hq1s hq1e]
        refine ⟨?_, ?_, ?_, ?_, ?_, ?_⟩ <;>
          simp [SessionInv, DumpState.sessionOpen, hsold, hse, hq1s,
            List.countP_append, Event.isCreate, Event.isFinalUpdate]
      · -- TRUCK_IN entering DUMP_LIFT: audit log only
        rw [hsold] at hup
        simp only [specTableTarget] at hup
        obtain ⟨u, hu⟩ : ∃ u, p.session_uuid = some u := by
          rcases ho : p.session_uuid with _ | u
          · rw [ho, hsold] at hinv
            simp [DumpState.sessionOpen] at hinv
          · exact ⟨u, rfl⟩
        rw [process_cycle_ai p inp hai]
        simp only [hup]
        set q1 : DumpProcessor :=
          { p with
            sm := p.sm.transition_to DumpState.DUMP_LIFT inp.now
            plate_number := tickPlateNumber inp.lpr_res } with hq1
        have hq1s : q1.sm.state = DumpState.DUMP_LIFT := by
          rw [hq1]
          simp
        have hq1e : q1.session_uuid = some u := by
          rw [hq1]
          exact hu
        rw [transition_phase_T4 q1 inp.now u (by rw [hq1s]; decide)
          (by rw [hq1s]; decide) hq1e]
        refine ⟨?_, ?_, ?_, ?_, ?_, ?_⟩ <;>
          simp [SessionInv, DumpState.sessionOpen, hsold, hu, hq1s,
            List.countP_append, Event.isCreate, Event.isFinalUpdate,
            Event.isLogTransition]
      · -- DUMP_LIFT entering DUMPING_ACTIVE: audit log only
        rw [hsold] at hup
        simp only [specTableTarget] at hup
        obtain ⟨u, hu⟩ : ∃ u, p.session_uuid = some u := by
          rcases ho : p.session_uuid with _ | u
          · rw [ho, hsold] at hinv
            simp [DumpState.sessionOpen] at hinv
          · exact ⟨u, rfl⟩
        rw [process_cycle_ai p inp hai]
        simp only [hup]
        set q1 : DumpProcessor :=
          { p with
            sm := p.sm.transition_to DumpState.DUMPING_ACTIVE inp.now
            plate_number := tickPlateNumber inp.lpr_res } with hq1
        have hq1s : q1.sm.state = DumpState.DUMPING_ACTIVE := by
          rw [hq1]
          simp
        have hq1e : q1.session_uuid = some u := by
          rw [hq1]
          exact hu
        rw [transition_phase_T4 q1 inp.now u (by rw [hq1s]; decide)
          (by rw [hq1s]; decide) hq1e]
        refine ⟨?_, ?_, ?_, ?_, ?_, ?_⟩ <;>
          simp [SessionInv, DumpState.sessionOpen, hsold, hu, hq1s,
            List.countP_append, Event.isCreate, Event.isFinalUpdate,
            Event.isLogTransition]
      · -- DUMPING_ACTIVE entering DUMPING_EMPTY: audit log only
        rw [hsold] at hup
        simp only [specTableTarget] at hup
        obtain ⟨u, hu⟩ : ∃ u, p.session_uuid = some u := by
          rcases ho : p.session_uuid with _ | u
          · rw [ho, hsold] at hinv
            simp [DumpState.sessionOpen] at hinv
          · exact ⟨u, rfl⟩
        rw [process_cycle_ai p inp hai]
        simp only [hup]
        set q1 : DumpProcessor :=
          { p with
            sm := p.sm.transition_to DumpState.DUMPING_EMPTY inp.now
            plate_number := tickPlateNumber inp.lpr_res } with hq1
        have hq1s : q1.sm.state = DumpState.DUMPING_EMPTY := by
          rw [hq1]
          simp
        have hq1e : q1.session_uuid = some u := by
          rw [hq1]
          exact hu
        rw [transition_phase_T4 q1 inp.now u (by rw [hq1s]; decide)
          (by rw [hq1s]; decide) hq1e]
        refine ⟨?_, ?_, ?_, ?_, ?_, ?_⟩ <;>
          simp [SessionInv, DumpState.sessionOpen, hsold, hu, hq1s,
            List.countP_append, Event.isCreate, Event.isFinalUpdate,
            Event.isLogTransition]
      · -- DUMPING_EMPTY entering DUMP_DOWN: audit log only
        rw [hsold] at hup
        simp only [specTableTarget] at hup
        obtain ⟨u, hu⟩ : ∃ u, p.session_uuid = some u := by
          rcases ho : p.session_uuid with _ | u
          · rw [ho, hsold] at hinv
            simp [DumpState.sessionOpen] at hinv
          · exact ⟨u, rfl⟩
        rw [process_cycle_ai p inp hai]
        simp only [hup]
        set q1 : DumpProcessor :=
          { p with
            sm := p.sm.transition_to DumpState.DUMP_DOWN inp.now
            plate_number := tickPlateNumber inp.lpr_res } with hq1
        have hq1s : q1.sm.state = DumpState.DUMP_DOWN := by
          rw [hq1]
          simp
        have hq1e : q1.session_uuid = some u := by
          rw [hq1]
          exact hu
        rw [transition_phase_T4 q1 inp.now u (by rw [hq1s]; decide)
          (by rw [hq1s]; decide) hq1e]
        refine ⟨?_, ?_, ?_, ?_, ?_, ?_⟩ <;>
          simp [SessionInv, DumpState.sessionOpen, hsold, hu, hq1s,
            List.countP_append, Event.isCreate, Event.isFinalUpdate,
            Event.isLogTransition]
      · -- DUMP_DOWN entering TRUCK_OUT: audit log only
        rw [hsold] at hup
        simp only [specTableTarget] at hup
        obtain ⟨u, hu⟩ : ∃ u, p.session_uuid = some u := by
          rcases ho : p.session_uuid with _ | u
          · rw [ho, hsold] at hinv
            simp [DumpState.sessionOpen] at hinv
          · exact ⟨u, rfl⟩
        rw [process_cycle_ai p inp hai]
        simp only [hup]
        set q1 : DumpProcessor :=
          { p with
            sm := p.sm.transition_to DumpState.TRUCK_OUT inp.now
            plate_number := tickPlateNumber inp.lpr_res } with hq1
        have hq1s : q1.sm.state = DumpState.TRUCK_OUT := by
          rw [hq1]
          simp
        have hq1e : q1.session_uuid = some u := by
          rw [hq1]
          exact hu
        rw [transition_phase_T4 q1 inp.now u (by rw [hq1s]; decide)
          (by rw [hq1s]; decide) hq1e]
        refine ⟨?_, ?_, ?_, ?_, ?_, ?_⟩ <;>
          simp [SessionInv, DumpState.sessionOpen, hsold, hu, hq1s,
            List.countP_append, Event.isCreate, Event.isFinalUpdate,
            Event.isLogTransition]
      · -- TRUCK_OUT entering EMPTY_RESET: finalization
        rw [hsold] at hup
        simp only [specTableTarget] at hup
        obtain ⟨u, hu⟩ : ∃ u, p.session_uuid = some u := by
          rcases ho : p.session_uuid with _ | u
          · rw [ho, hsold] at hinv
            simp [DumpState.sessionOpen] at hinv
          · exact ⟨u, rfl⟩
        rw [process_cycle_ai p inp hai]
        simp only [hup]
        set q1 : DumpProcessor :=
          { p with
            sm := p.sm.transition_to DumpState.EMPTY_RESET inp.now
            plate_number := tickPlateNumber inp.lpr_res } with hq1
        have hq1s : q1.sm.state = DumpState.EMPTY_RESET := by
          rw [hq1]
          simp
        have hq1e : q1.session_uuid = some u := by
          rw [hq1]
          exact hu
        rw [transition_phase_T3 q1 inp.now u hq1s hq1e]
        refine ⟨?_, ?_, ?_, ?_, ?_, ?_⟩ <;>
          simp [SessionInv, DumpState.sessionOpen, hsold, hu, hq1s,
            List.countP_append, Event.isCreate, Event.isFinalUpdate,
            Event.isLogTransition]
      · -- EMPTY_RESET entering EMPTY_IDLE: nothing to log or close
        rw [hsold] at hup
        simp only [specTableTarget] at hup
        have hse : p.session_uuid = none := by
          apply option_isSome_false
          rw [hinv, hsold]
          rfl
        rw [process_cycle_ai p inp hai]
        simp only [hup]
        set q1 : DumpProcessor :=
          { p with
            sm := p.sm.transition_to DumpState.EMPTY_IDLE inp.now
            plate_number := tickPlateNumber inp.lpr_res } with hq1
        have hq1s : q1.sm.state = DumpState.EMPTY_IDLE := by
          rw [hq1]
          simp
        have hq1e : q1.session_uuid = none := by
          rw [hq1]
          exact hse
        rw [transition_phase_T2 q1 inp.now (by rw [hq1s]; decide) hq1e]
        refine ⟨?_, ?_, ?_, ?_, ?_, ?_⟩ <;>
          simp [SessionInv, DumpState.sessionOpen, hsold, hse, hq1s,
            List.countP_append, Event.isCreate, Event.isFinalUpdate]


theorem sessionInv_init (dump_id : String) (t0 : Time) :
    SessionInv (DumpProcessor.init dump_id t0) := rfl

theorem runCycles_sessionInv (q : DumpProcessor) (inputs : List CycleInput)
    (h : SessionInv q) : SessionInv (q.runCycles inputs) := by
  induction inputs generalizing q with
  | nil => exact h
  | cons i is ih => exact ih _ ((process_cycle_spec q i h).1)

/-- C1: at most one session is open per station at any instant — the
single in-memory handle of a reachable processor state is non-empty
exactly between the TRUCK_IN entry and the EMPTY_RESET entry of its FSM;
moreover a tick emits `create_session` exactly once when the FSM enters
TRUCK_IN and only with no session open, emits the terminal
`update_session(status=…)` exactly once when the FSM enters EMPTY_RESET
and only with a session open, and leaves the handle cleared whenever the
FSM sits in EMPTY_RESET — so each of the two calls happens exactly once
per unload cycle. -/
theorem session_lifecycle_exactly_once (dump_id : String) (t0 : Time)
    (p : DumpProcessor) (inp : CycleInput)
    (hreach : ReachableFrom (DumpProcessor.init dump_id t0) p) :
    p.session_uuid.isSome = p.sm.state.sessionOpen
    ∧ ((p.process_cycle inp).1.sm.state = DumpState.TRUCK_IN
          ∧ p.sm.state ≠ DumpState.TRUCK_IN → p.session_uuid = none)
    ∧ ((p.process_cycle inp).2.countP Event.isCreate
        = if (p.process_cycle inp).1.sm.state = DumpState.TRUCK_IN
              ∧ p.sm.state ≠ DumpState.TRUCK_IN then 1 else 0)
    ∧ ((p.process_cycle inp).1.sm.state = DumpState.EMPTY_RESET
          ∧ p.sm.state ≠ DumpState.EMPTY_RESET → p.session_uuid.isSome = true)
    ∧ ((p.process_cycle inp).2.countP Event.isFinalUpdate
        = if (p.process_cycle inp).1.sm.state = DumpState.EMPTY_RESET
              ∧ p.sm.state ≠ DumpState.EMPTY_RESET then 1 else 0)
    ∧ ((p.process_cycle inp).1.sm.state = DumpState.EMPTY_RESET →
        (p.process_cycle inp).1.session_uuid = none) := by
  obtain ⟨ins, rfl⟩ := hreach
  have hinv : SessionInv ((DumpProcessor.init dump_id t0).runCycles ins) :=
    runCycles_sessionInv _ ins (sessionInv_init dump_id t0)
  obtain ⟨h1, h2, h3, h4, h5, h6⟩ :=
    process_cycle_spec ((DumpProcessor.init dump_id t0).runCycles ins) inp hinv
  exact ⟨hinv, h2, h3, h4, h5, h6⟩

/-- C1 witness: a freshly initialized station is reachable (empty tick
sequence) and its handle/FSM agree on having no open session. -/
theorem session_lifecycle_exactly_once_witness :
    ReachableFrom (DumpProcessor.init "DUMP_1" 0)
        (DumpProcessor.init "DUMP_1" 0)
    ∧ (DumpProcessor.init "DUMP_1" 0).session_uuid.isSome
        = (DumpProcessor.init "DUMP_1" 0).sm.state.sessionOpen := by
  refine ⟨⟨[], rfl⟩, ?_⟩
  exact (session_lifecycle_exactly_once "DUMP_1" 0
    (DumpProcessor.init "DUMP_1" 0)
    ⟨1, 2, none, none, ⟨some false, some 0, some false⟩, 5⟩
    ⟨[], rfl⟩).1

/-- C4: finalization derives the terminal status from the image buffer —
COMPLETE exactly when all 4 of the k ∈ 0..4 slots are filled, INCOMPLETE
otherwise —, hands the 4 slot values to the merge collaborator, and
persists the end time, the status and the composite path in one
`update_session` call. -/
theorem finalize_session_spec (p : DumpProcessor) (now : Time)
    (uuid : Nat) :
    ∃ status,
      p.finalize_session now uuid
        = [Event.mergeImages p.session_images.values p.plate_number,
           Event.updateSessionFinal uuid now status
             (merged_filename p.dump_id uuid)]
      ∧ (status = "COMPLETE" ↔ p.session_images.filledCount = 4)
      ∧ (status = "COMPLETE" ∨ status = "INCOMPLETE") := by
  have hkey : (p.session_images.all_captured = true)
      ↔ p.session_images.filledCount = 4 := by
    rcases hbuf : p.session_images with ⟨i1, i2, i3, i4⟩
    rcases i1 <;> rcases i2 <;> rcases i3 <;> rcases i4 <;>
      simp [SessionImages.all_captured, SessionImages.values,
        SessionImages.filledCount]
  refine ⟨if p.session_images.all_captured then "COMPLETE"
    else "INCOMPLETE", rfl, ?_, ?_⟩
  · by_cases hall : p.session_images.all_captured = true
    · rw [if_pos hall]
      simp [hkey.mp hall]
    · rw [if_neg hall]
      constructor
      · intro h
        exact absurd h (by decide)
      · intro h
        exact absurd (hkey.mpr h) hall
  · by_cases hall : p.session_images.all_captured = true
    · rw [if_pos hall]
      exact Or.inl rfl
    · rw [if_neg hall]
      exact Or.inr rfl


/-- Embeds the control flow of `LPREngine.detect` (lpr_engine.py): the
expensive OCR pass (`_ocr_plate`) executes exactly when a plate box above
the confidence threshold was found and `skip_ocr` is false. -/
def detect_performs_ocr (box_found skip_ocr : Bool) : Bool :=
  box_found && !skip_ocr

theorem perform_capture_lpr_skip (p : DumpProcessor) (trigger : String)
    (inp : CycleInput) (uuid : Nat) (skip : Bool)
    (h : Event.lprDetect skip ∈ (p.perform_capture trigger inp uuid).2) :
    skip = false := by
  unfold DumpProcessor.perform_capture at h
  split_ifs at h with ht
  · rcases hfull : inp.lpr_full with _ | r
    · simp only [hfull] at h
      simp_all
    · rcases htext : r.text with _ | s
      · simp only [hfull, htext] at h
        simp_all
      · by_cases hs : s = ""
        · simp only [hfull, htext, hs] at h
          simp_all
        · simp only [hfull, htext, if_neg hs] at h
          simp_all
  · simp_all

theorem transition_phase_no_lpr (q : DumpProcessor) (c : Bool) (now : Time)
    (skip : Bool) :
    Event.lprDetect skip ∉ (q.transition_phase c now).2 := by
  unfold DumpProcessor.transition_phase
  cases c
  · simp
  · rcases hse : q.session_uuid with _ | u <;>
      split_ifs <;>
        simp_all [DumpProcessor.finalize_session] <;>
          split_ifs <;>
            simp_all

/-- C5 counterexample: on a regular analysis tick of a fresh station — a
truck plate detected but no capture performed (no session open, no image
logged) — the orchestrator still calls the plate engine with
`skip_ocr=False`, so the OCR pass executes outside the `IMAGE_1` capture,
contradicting the claimed bbox-only per-tick call. -/
theorem ocr_every_tick_cex :
    (Event.lprDetect false
        ∈ ((DumpProcessor.init "DUMP_1" 0).process_cycle
            ⟨1, 2, some ⟨300, some "12-3456"⟩, none,
             ⟨some false, some 0, some false⟩, 5⟩).2)
    ∧ (∀ u t, Event.logImage u t
        ∉ ((DumpProcessor.init "DUMP_1" 0).process_cycle
            ⟨1, 2, some ⟨300, some "12-3456"⟩, none,
             ⟨some false, some 0, some false⟩, 5⟩).2)
    ∧ detect_performs_ocr true false = true := by
  have hdeb : ¬((5 : Time) - (0 : Time) < (2 : Time)) := by norm_num
  have hup : (DumpProcessor.init "DUMP_1" 0).sm.update
      (frontFromLpr (some ⟨300, some "12-3456"⟩))
      ⟨some false, some 0, some false⟩ 5
      = ((DumpProcessor.init "DUMP_1" 0).sm, false) := by
    rw [update_not_debounced _ _ _ _ hdeb]
    rfl
  have hevs : ((DumpProcessor.init "DUMP_1" 0).process_cycle
      ⟨1, 2, some ⟨300, some "12-3456"⟩, none,
       ⟨some false, some 0, some false⟩, 5⟩).2
      = [Event.lprDetect false, Event.clsAnalyze] := by
    rw [process_cycle_ai _ _ rfl]
    simp only [hup, transition_phase_false]
    rfl
  rw [hevs]
  refine ⟨by decide, ?_, rfl⟩
  intro u t h
  simp at h

theorem perform_capture_image1_head (q : DumpProcessor) (inp : CycleInput)
    (uuid : Nat) :
    ∃ rest, (q.perform_capture "IMAGE_1" inp uuid).2
      = Event.lprDetect false :: rest := by
  unfold DumpProcessor.perform_capture
  rw [if_pos rfl]
  rcases hfull : inp.lpr_full with _ | r
  · refine ⟨[Event.logImage uuid "IMAGE_1"], ?_⟩
    simp [hfull]
  · rcases htext : r.text with _ | s
    · refine ⟨[Event.logImage uuid "IMAGE_1"], ?_⟩
      simp [hfull, htext]
    · by_cases hs : s = ""
      · refine ⟨[Event.logImage uuid "IMAGE_1"], ?_⟩
        simp [hfull, htext, hs]
      · refine ⟨[Event.updateSessionPlate uuid s,
          Event.logImage uuid "IMAGE_1"], ?_⟩
        simp [hfull, htext, hs]

theorem perform_capture_image1_persists (q : DumpProcessor)
    (inp : CycleInput) (uuid : Nat) (r : LPRRes) (s : String)
    (hfull : inp.lpr_full = some r) (htext : r.text = some s)
    (hs : ¬ s = "") :
    Event.updateSessionPlate uuid s
        ∈ (q.perform_capture "IMAGE_1" inp uuid).2
    ∧ (q.perform_capture "IMAGE_1" inp uuid).1.plate_number = s := by
  unfold DumpProcessor.perform_capture
  rw [if_pos rfl]
  simp [hfull, htext, hs]

/-- C5 amended: on every analysis tick the orchestrator calls the plate
engine with OCR enabled (`skip_ocr=False`) — the per-tick call is not
bbox-only — and every plate-engine call of a tick, including the IMAGE_1
capture re-run, passes `skip_ocr=False`; with a box found, the OCR pass
therefore executes on every analysis tick, not only at the capture. At
the IMAGE_1 capture itself, `_perform_capture` does re-run the plate
engine (its trace starts with the OCR-enabled call) and, whenever the
re-run response carries non-empty text, persists that plate number to
the session via `update_session` and keeps it as the processor's plate
number. -/
theorem analysis_tick_runs_ocr (p : DumpProcessor) (inp : CycleInput)
    (hai : p.ai_enabled = true) :
    (∃ rest, (p.process_cycle inp).2
        = Event.lprDetect false :: Event.clsAnalyze :: rest)
    ∧ (∀ skip, Event.lprDetect skip ∈ (p.process_cycle inp).2 →
        skip = false)
    ∧ (∀ box_found : Bool,
        detect_performs_ocr box_found false = box_found)
    ∧ (∀ (q : DumpProcessor) (uuid : Nat),
        ∃ rest, (q.perform_capture "IMAGE_1" inp uuid).2
          = Event.lprDetect false :: rest)
    ∧ (∀ (q : DumpProcessor) (uuid : Nat) (r : LPRRes) (s : String),
        inp.lpr_full = some r → r.text = some s → ¬ s = "" →
        Event.updateSessionPlate uuid s
            ∈ (q.perform_capture "IMAGE_1" inp uuid).2
          ∧ (q.perform_capture "IMAGE_1" inp uuid).1.plate_number = s) := by
  rw [process_cycle_ai p inp hai]
  refine ⟨?_, ?_, ?_, ?_, ?_⟩
  · exact ⟨_, rfl⟩
  · intro skip h
    simp only [List.cons_append, List.nil_append, List.mem_cons,
      List.mem_append] at h
    rcases h with h | h | h
    · cases h
      rfl
    · cases h
    · rcases h with h | h
      · exact absurd h (transition_phase_no_lpr _ _ _ _)
      · revert h
        unfold DumpProcessor.capture_phase
        rcases htr : StateManager.get_capture_trigger _ inp.now
          with _ | tg
        · intro h
          simp at h
        · rcases hse2 : DumpProcessor.session_uuid _ with _ | u
          · intro h
            simp at h
          · intro h
            exact perform_capture_lpr_skip _ tg inp u skip h
  · intro b
    cases b <;> rfl
  · intro q uuid
    exact perform_capture_image1_head q inp uuid
  · intro q uuid r s hfull htext hs
    exact perform_capture_image1_persists q inp uuid r s hfull htext hs

/-- C5 amended witness: a fresh station has AI enabled, and its first
tick's trace begins with the OCR-enabled plate call. -/
theorem analysis_tick_runs_ocr_witness :
    ((DumpProcessor.init "DUMP_1" 0).ai_enabled = true)
    ∧ (∃ rest, ((DumpProcessor.init "DUMP_1" 0).process_cycle
        ⟨1, 2, none, none, ⟨some false, some 0, some false⟩, 5⟩).2
        = Event.lprDetect false :: Event.clsAnalyze :: rest) := by
  refine ⟨rfl, ?_⟩
  exact (analysis_tick_runs_ocr (DumpProcessor.init "DUMP_1" 0)
    ⟨1, 2, none, none, ⟨some false, some 0, some false⟩, 5⟩ rfl).1


set_option maxHeartbeats 1600000 in
/-- C7 counterexample: on a fresh station a tick moves the FSM from
EMPTY_IDLE into TRUCK_IN — `update` reports the change — yet the trace
contains no `log_state_transition` call at all (the session handle is
checked before the session is created); and the record the next tick
writes for the TRUCK_IN → DUMP_LIFT transition carries the placeholder
string "PREV", not the actual from-state "TRUCK_IN". -/
theorem transition_log_cex :
    ((DumpProcessor.init "DUMP_1" 0).process_cycle
        ⟨1, 2, some ⟨300, none⟩, none,
         ⟨some true, some 95, some false⟩, 5⟩).1.sm.state
      = DumpState.TRUCK_IN
    ∧ (DumpProcessor.init "DUMP_1" 0).sm.state ≠ DumpState.TRUCK_IN
    ∧ (∀ e ∈ ((DumpProcessor.init "DUMP_1" 0).process_cycle
        ⟨1, 2, some ⟨300, none⟩, none,
         ⟨some true, some 95, some false⟩, 5⟩).2,
        e.isLogTransition = false)
    ∧ Event.logTransition 0 "PREV" "DUMP_LIFT" 10
        ∈ (((DumpProcessor.init "DUMP_1" 0).process_cycle
            ⟨1, 2, some ⟨300, none⟩, none,
             ⟨some true, some 95, some false⟩, 5⟩).1.process_cycle
            ⟨3, 4, some ⟨200, none⟩, none,
             ⟨some true, some 95, some false⟩, 10⟩).2
    ∧ "PREV" ≠ "TRUCK_IN" := by
  have hdeb1 : ¬((5 : Time) - (0 : Time) < (2 : Time)) := by norm_num
  have hup1 : (DumpProcessor.init "DUMP_1" 0).sm.update
      (frontFromLpr (some ⟨300, none⟩)) ⟨some true, some 95, some false⟩ 5
      = ((DumpProcessor.init "DUMP_1" 0).sm.transition_to
          DumpState.TRUCK_IN 5, true) := by
    rw [update_not_debounced _ _ _ _ hdeb1]
    simp [specTableCond, specTableTarget, frontFromLpr, DumpProcessor.init]
  have hstep1 : (DumpProcessor.init "DUMP_1" 0).process_cycle
      ⟨1, 2, some ⟨300, none⟩, none, ⟨some true, some 95, some false⟩, 5⟩
      = (({ dump_id := "DUMP_1", sm := { state := DumpState.TRUCK_IN, last_state_change := 5, captured_images := ["IMAGE_1"], debounce_time := 2 }, session_uuid := some 0, next_uuid := 1, session_images := { image1 := some 1, image2 := none, image3 := none, image4 := none }, plate_number := "UNKNOWN", ai_enabled := true, last_snap_time := 0 } : DumpProcessor),
         [Event.lprDetect false, Event.clsAnalyze, Event.createSession 0,
          Event.lprDetect false, Event.logImage 0 "IMAGE_1"]) := by
    rw [process_cycle_ai _ _ rfl]
    simp only [hup1]
    simp [DumpProcessor.transition_phase, DumpProcessor.capture_phase,
      DumpProcessor.perform_capture, StateManager.get_capture_trigger,
      StateManager.transition_to, StateManager.mark_captured,
      SessionImages.set, tickPlateNumber, DumpState.name,
      DumpProcessor.finalize_session, DumpProcessor.init]
  have hdeb2 : ¬((10 : Time) - (5 : Time) < (2 : Time)) := by norm_num
  have hup2 : ({ dump_id := "DUMP_1", sm := { state := DumpState.TRUCK_IN, last_state_change := 5, captured_images := ["IMAGE_1"], debounce_time := 2 }, session_uuid := some 0, next_uuid := 1, session_images := { image1 := some 1, image2 := none, image3 := none, image4 := none }, plate_number := "UNKNOWN", ai_enabled := true, last_snap_time := 0 } : DumpProcessor).sm.update
      (frontFromLpr (some ⟨200, none⟩)) ⟨some true, some 95, some false⟩ 10
      = (({ dump_id := "DUMP_1", sm := { state := DumpState.TRUCK_IN, last_state_change := 5, captured_images := ["IMAGE_1"], debounce_time := 2 }, session_uuid := some 0, next_uuid := 1, session_images := { image1 := some 1, image2 := none, image3 := none, image4 := none }, plate_number := "UNKNOWN", ai_enabled := true, last_snap_time := 0 } : DumpProcessor).sm.transition_to
          DumpState.DUMP_LIFT 10, true) := by
    rw [update_not_debounced _ _ _ _ hdeb2]
    simp [specTableCond, specTableTarget, frontFromLpr]
  have hstep2 : (({ dump_id := "DUMP_1", sm := { state := DumpState.TRUCK_IN, last_state_change := 5, captured_images := ["IMAGE_1"], debounce_time := 2 }, session_uuid := some 0, next_uuid := 1, session_images := { image1 := some 1, image2 := none, image3 := none, image4 := none }, plate_number := "UNKNOWN", ai_enabled := true, last_snap_time := 0 } : DumpProcessor).process_cycle
      ⟨3, 4, some ⟨200, none⟩, none, ⟨some true, some 95, some false⟩, 10⟩).2
      = [Event.lprDetect false, Event.clsAnalyze,
         Event.logTransition 0 "PREV" "DUMP_LIFT" 10,
         Event.logImage 0 "IMAGE_2"] := by
    rw [process_cycle_ai _ _ rfl]
    simp only [hup2]
    simp [DumpProcessor.transition_phase, DumpProcessor.capture_phase,
      DumpProcessor.perform_capture, StateManager.get_capture_trigger,
      StateManager.transition_to, StateManager.mark_captured,
      SessionImages.set, tickPlateNumber, DumpState.name,
      DumpProcessor.finalize_session]
  have hfst : ((DumpProcessor.init "DUMP_1" 0).process_cycle
      ⟨1, 2, some ⟨300, none⟩, none, ⟨some true, some 95, some false⟩, 5⟩).1
      = ({ dump_id := "DUMP_1", sm := { state := DumpState.TRUCK_IN, last_state_change := 5, captured_images := ["IMAGE_1"], debounce_time := 2 }, session_uuid := some 0, next_uuid := 1, session_images := { image1 := some 1, image2 := none, image3 := none, image4 := none }, plate_number := "UNKNOWN", ai_enabled := true, last_snap_time := 0 } : DumpProcessor) := by
    rw [hstep1]
  refine ⟨?_, by decide, ?_, ?_, by decide⟩
  · rw [hfst]
  · rw [hstep1]
    decide
  · rw [hfst, hstep2]
    simp

/-- C7 amended: when `update` reports a change and the in-memory session
handle is non-empty at the moment of the check, exactly one transition
record is appended, carrying the handle's uuid, the literal placeholder
"PREV" as from-state, the actual new state's name, and the tick's
timestamp; when the handle is empty at the check — in particular on the
entry to TRUCK_IN, whose session is created only after the check, and on
the reset to EMPTY_IDLE — no record is appended. -/
theorem transition_log_characterization (q : DumpProcessor) (now : Time) :
    ((q.transition_phase false now).2.countP Event.isLogTransition = 0)
    ∧ (∀ u, q.session_uuid = some u →
        (q.transition_phase true now).2.countP Event.isLogTransition = 1
        ∧ Event.logTransition u "PREV" q.sm.state.name now
            ∈ (q.transition_phase true now).2)
    ∧ (q.session_uuid = none →
        (q.transition_phase true now).2.countP Event.isLogTransition = 0) := by
  refine ⟨by simp, ?_, ?_⟩
  · intro u hu
    unfold DumpProcessor.transition_phase
    simp only [hu]
    split_ifs <;>
      simp_all [DumpProcessor.finalize_session, Event.isLogTransition]
  · intro hnone
    unfold DumpProcessor.transition_phase
    simp only [hnone]
    split_ifs <;>
      simp_all [Event.isLogTransition]

/-- C7 amended witness: with an open session and the FSM in DUMP_LIFT,
the changed-tick bookkeeping writes exactly one "PREV"-record. -/
theorem transition_log_characterization_witness :
    ((⟨"DUMP_1", ⟨.DUMP_LIFT, 5, [], 2⟩, some 3, 4, {}, "UNKNOWN",
        true, 0⟩ : DumpProcessor).session_uuid = some 3)
    ∧ ((DumpProcessor.transition_phase
        ⟨"DUMP_1", ⟨.DUMP_LIFT, 5, [], 2⟩, some 3, 4, {}, "UNKNOWN",
          true, 0⟩ true 7).2.countP Event.isLogTransition = 1) := by
  refine ⟨rfl, ?_⟩
  exact ((transition_log_characterization
    ⟨"DUMP_1", ⟨.DUMP_LIFT, 5, [], 2⟩, some 3, 4, {}, "UNKNOWN",
      true, 0⟩ 7).2.1 3 rfl).1


/-! Stream-worker frame mailbox: source/orchestration/camera.py.
`CameraWorker.latest_frame` is a single lock-protected slot initialized
to `None`; the reader loop overwrites it (`self.latest_frame = frame`)
and the processor loop copies its current content. -/

/-- The reader loop's publish: overwrite the single slot. -/
def CameraWorker.publish_frame (_latest_frame : Option Nat) (frame : Nat) :
    Option Nat :=
  some frame

/-- The processor loop's read of the slot. -/
def CameraWorker.read_latest (latest_frame : Option Nat) : Option Nat :=
  latest_frame

/-- How many frames the mailbox is buffering. -/
def CameraWorker.bufferedFrames (latest_frame : Option Nat) : Nat :=
  match latest_frame with
  | none => 0
  | some _ => 1

theorem publish_frame_foldl (init : Option Nat) (frames : List Nat)
    (h : frames ≠ []) :
    frames.foldl CameraWorker.publish_frame init = frames.getLast? := by
  induction frames generalizing init with
  | nil => exact absurd rfl h
  | cons a l ih =>
      cases l with
      | nil => rfl
      | cons b l2 =>
          rw [List.foldl_cons, ih _ (by simp), List.getLast?_cons_cons]

/-- C8: the mailbox is a single-slot latest-value cell — after any
nonempty sequence of reader publishes it buffers at most one frame, and
a consumer read observes exactly the newest published frame, no matter
how many publishes happened since the previous read. -/
theorem mailbox_single_slot_latest (init : Option Nat)
    (frames : List Nat) (h : frames ≠ []) :
    (∀ m, CameraWorker.bufferedFrames m ≤ 1)
    ∧ CameraWorker.read_latest
        (frames.foldl CameraWorker.publish_frame init) = frames.getLast? := by
  constructor
  · intro m
    cases m <;> simp [CameraWorker.bufferedFrames]
  · exact publish_frame_foldl init frames h

/-- C8 witness: 1000 reader publishes against one consumer read — the
read observes only the newest frame. -/
theorem mailbox_single_slot_latest_witness :
    (List.range 1000 ≠ [])
    ∧ CameraWorker.read_latest
        ((List.range 1000).foldl CameraWorker.publish_frame none)
        = (List.range 1000).getLast? := by
  have h : List.range 1000 ≠ [] := by
    simp [List.range_eq_nil]
  exact ⟨h, (mailbox_single_slot_latest none (List.range 1000) h).2⟩

/-! Plate-text normalizer: source/orchestration/lpr_engine.py. Python
string primitives are embedded as character-list operations: `upper`
maps `Char.toUpper`, `strip` drops whitespace at both ends,
`replace(" ", "")` filters out spaces, `isdigit` is `Char.isDigit`
(these agree with Python on the ASCII range). -/

/-- Python `str.upper` on the character list. -/
def LPREngine.pyUpper (t : List Char) : List Char :=
  t.map Char.toUpper

/-- Python `str.strip` on the character list. -/
def LPREngine.pyStrip (t : List Char) : List Char :=
  ((t.dropWhile Char.isWhitespace).reverse.dropWhile
    Char.isWhitespace).reverse

/-- Python `str.replace(" ", "")` on the character list. -/
def LPREngine.pyRemoveSpaces (t : List Char) : List Char :=
  t.filter (fun c => c ≠ ' ')

/-- The `_text_swap` dict of `LPREngine.__init__`: aggressive
alpha-to-digit replacement values, with the two-character "??" for F. -/
def LPREngine.text_swap (c : Char) : Option (List Char) :=
  if c = 'O' ∨ c = 'D' ∨ c = 'Q' ∨ c = 'U' ∨ c = 'C' then some ['0']
  else if c = 'I' ∨ c = 'L' ∨ c = 'T' ∨ c = 'J' then some ['1']
  else if c = 'Z' then some ['2']
  else if c = 'A' then some ['4']
  else if c = 'S' then some ['5']
  else if c = 'G' ∨ c = 'E' then some ['6']
  else if c = 'Y' ∨ c = 'V' then some ['7']
  else if c = 'B' then some ['8']
  else if c = 'P' then some ['9']
  else if c = 'F' then some ['?', '?']
  else none

/-- The loop of `normalize_text`: per character, append the swap value
when the character is a swap key, the character itself when it is a
digit, and nothing otherwise; `digits` is the concatenation. -/
def LPREngine.swapped_chars : List Char → List Char
  | [] => []
  | ch :: rest =>
      (match LPREngine.text_swap ch with
       | some s => s
       | none => if ch.isDigit then [ch] else [])
        ++ LPREngine.swapped_chars rest

/-- `LPREngine.normalize_text`: upper-case, strip, drop spaces, apply
the swap loop, then either format the 6 collected characters as
`xx-xxxx` or fall back to "00-0000". -/
def LPREngine.normalize_text (text : String) : String :=
  let t := LPREngine.pyRemoveSpaces (LPREngine.pyStrip
    (LPREngine.pyUpper text.data))
  let digits := LPREngine.swapped_chars t
  if digits.length = 6 then
    String.mk (digits.take 2 ++ '-' :: digits.drop 2)
  else "00-0000"

set_option maxHeartbeats 1600000 in
theorem text_swap_chars (ch : Char) (s : List Char)
    (h : LPREngine.text_swap ch = some s) :
    ∀ c ∈ s, c.isDigit = true ∨ c = '?' := by
  unfold LPREngine.text_swap at h
  split_ifs at h
  all_goals (cases h)
  all_goals decide

theorem swapped_chars_digits (t : List Char) :
    ∀ c ∈ LPREngine.swapped_chars t, c.isDigit = true ∨ c = '?' := by
  induction t with
  | nil =>
      intro c h
      simp [LPREngine.swapped_chars] at h
  | cons ch rest ih =>
      intro c h
      rw [LPREngine.swapped_chars] at h
      rcases List.mem_append.mp h with h1 | h2
      · rcases htsw : LPREngine.text_swap ch with _ | s
        · simp only [htsw] at h1
          by_cases hd : ch.isDigit = true
          · rw [if_pos hd] at h1
            have hc := List.mem_singleton.mp h1
            subst hc
            exact Or.inl hd
          · rw [if_neg hd] at h1
            simp at h1
        · simp only [htsw] at h1
          exact text_swap_chars ch s htsw c h1
      · exact ih c h2

/-- C10 counterexample: the swap table maps F to the two-character
string "??", so an input with an F and four digits yields exactly six
collected characters and the result "??-1234" — which is neither the
fallback nor a digits-hyphen-digits string, and contains '?'. -/
theorem normalize_text_cex :
    LPREngine.normalize_text "F1234" = "??-1234"
    ∧ ('?' ∈ (LPREngine.normalize_text "F1234").data)
    ∧ ¬(('?').isDigit = true ∨ '?' = '-')
    ∧ LPREngine.normalize_text "F1234" ≠ "00-0000" := by
  refine ⟨by decide, by decide, by decide, by decide⟩

/-- C10 amended: for every input string, `normalize_text` returns either
the fallback "00-0000" or a 7-character string whose third character is
a hyphen and whose remaining characters are decimal digits or '?' (the
'?' arising only from the F ↦ "??" swap); every character of the result
is a digit, '-', or '?'. -/
theorem normalize_text_shape (text : String) :
    (∀ c ∈ (LPREngine.normalize_text text).data,
        c.isDigit = true ∨ c = '-' ∨ c = '?')
    ∧ (LPREngine.normalize_text text = "00-0000"
       ∨ ∃ d : List Char, d.length = 6
           ∧ (∀ c ∈ d, c.isDigit = true ∨ c = '?')
           ∧ (LPREngine.normalize_text text).data
               = d.take 2 ++ '-' :: d.drop 2) := by
  have heq : LPREngine.normalize_text text
      = if (LPREngine.swapped_chars (LPREngine.pyRemoveSpaces
            (LPREngine.pyStrip (LPREngine.pyUpper text.data)))).length = 6
        then String.mk ((LPREngine.swapped_chars (LPREngine.pyRemoveSpaces
            (LPREngine.pyStrip (LPREngine.pyUpper text.data)))).take 2
          ++ '-' :: (LPREngine.swapped_chars (LPREngine.pyRemoveSpaces
            (LPREngine.pyStrip (LPREngine.pyUpper text.data)))).drop 2)
        else "00-0000" := rfl
  constructor
  · intro c hc
    rw [heq] at hc
    split_ifs at hc with hlen
    · simp only [String.data] at hc
      rcases List.mem_append.mp hc with h1 | h2
      · have := swapped_chars_digits _ c (List.take_subset _ _ h1)
        tauto
      · rcases List.mem_cons.mp h2 with h3 | h3
        · subst h3
          right
          left
          rfl
        · have := swapped_chars_digits _ c (List.drop_subset _ _ h3)
          tauto
    · have hdata : ("00-0000" : String).data
          = ['0', '0', '-', '0', '0', '0', '0'] := rfl
      rw [hdata] at hc
      fin_cases hc <;> decide
  · rw [heq]
    split_ifs with hlen
    · right
      exact ⟨_, hlen, swapped_chars_digits _, rfl⟩
    · left
      rfl


end SugarcaneDump
